import Mathlib

/-!
Shallow embedding of the OpenTelemetry-instrumented Go HTTP service
(go-app/main.go) and proofs about its telemetry pipeline coordinator,
request instrumentation and shutdown behaviour.

Go conventions used in the embedding:
  * a Go `error` value is an `Option Err` (`none` is the nil error);
  * fallible library constructors are parametrised by their outcome
    (an environment record), since their internals are external to the
    program; the program text that inspects and propagates those
    outcomes is translated literally;
  * `defer f()` runs `f` on every exit path of the surrounding
    function, including early returns and panics (Go language spec);
    the embedding of each function appends the deferred action on each
    exit path;
  * time is a natural-number clock in milliseconds; `time.Sleep(d)`
    advances it by `d`.
-/

namespace GoOtel

/-- Go error values that appear in the embedding. `errClientConnClosing`
is the sentinel error the grpc-go `ClientConn.Close` method returns when
the connection has already been closed; `external n` is an arbitrary
error produced by a library call. -/
inductive Err where
  | errClientConnClosing
  | external (code : Nat)
deriving DecidableEq, Repr

/-- Mutable state of the pipeline objects captured by the shutdown
closure returned from `initOtel`: whether the shared gRPC connection and
each of the three providers have already been closed / shut down. -/
structure OtelState where
  connClosed : Bool
  tpIsShutdown : Bool
  mpIsShutdown : Bool
  lpIsShutdown : Bool
deriving DecidableEq, Repr

/-- The state in which nothing has been closed or shut down yet: the
state right after a successful `initOtel`. -/
def freshState : OtelState :=
  { connClosed := false, tpIsShutdown := false,
    mpIsShutdown := false, lpIsShutdown := false }

/-- Outcomes of the underlying close / shutdown operations the first
time each of them runs: the error (nil or not) that `conn.Close()`,
`tracerProvider.Shutdown`, `meterProvider.Shutdown` and
`loggerProvider.Shutdown` report. These are external library behaviours,
so they are inputs of the embedding. -/
structure ShutdownEnv where
  connCloseErr : Option Err
  tpShutdownErr : Option Err
  mpShutdownErr : Option Err
  lpShutdownErr : Option Err
deriving DecidableEq, Repr

/-- One stage of the shutdown sequence, used to record the order in
which the closure invokes the underlying operations. -/
inductive ShutdownStage where
  | connClose
  | tpShutdown
  | mpShutdown
  | lpShutdown
deriving DecidableEq, Repr

/-- Embedding of `conn.Close()` (grpc-go `ClientConn.Close`): on the
first call it closes the connection and reports the library outcome; a
repeated call returns the sentinel `ErrClientConnClosing` without
panicking (documented grpc-go behaviour). -/
def connClose (env : ShutdownEnv) (s : OtelState) : OtelState × Option Err :=
  if s.connClosed then (s, some Err.errClientConnClosing)
  else ({ s with connClosed := true }, env.connCloseErr)

/-- Embedding of `tracerProvider.Shutdown(ctx)`: the SDK trace provider
shutdown is documented to have an effect only on the first call;
repeated calls return nil. -/
def tracerProviderShutdown (env : ShutdownEnv) (s : OtelState) :
    OtelState × Option Err :=
  if s.tpIsShutdown then (s, none)
  else ({ s with tpIsShutdown := true }, env.tpShutdownErr)

/-- Embedding of `meterProvider.Shutdown(ctx)`: only the first call has
an effect; repeated calls return nil. -/
def meterProviderShutdown (env : ShutdownEnv) (s : OtelState) :
    OtelState × Option Err :=
  if s.mpIsShutdown then (s, none)
  else ({ s with mpIsShutdown := true }, env.mpShutdownErr)

/-- Embedding of `loggerProvider.Shutdown(ctx)`: only the first call has
an effect; repeated calls return nil. -/
def loggerProviderShutdown (env : ShutdownEnv) (s : OtelState) :
    OtelState × Option Err :=
  if s.lpIsShutdown then (s, none)
  else ({ s with lpIsShutdown := true }, env.lpShutdownErr)

/-- Embedding of the shutdown closure returned by `initOtel`
(go-app/main.go lines 131-149). It invokes, in program order,
`conn.Close()`, then the trace, metric and log provider shutdowns, then
returns the first non-nil error among the four results (the chain of
`if cErr != nil ... if tpErr != nil ... if mpErr != nil ...
if lpErr != nil ... return nil`). The returned list records the order in
which the four operations were invoked. -/
def shutdownClosure (env : ShutdownEnv) (s : OtelState) :
    OtelState × List ShutdownStage × Option Err :=
  let r0 := connClose env s
  let cErr := r0.2
  let r1 := tracerProviderShutdown env r0.1
  let tpErr := r1.2
  let r2 := meterProviderShutdown env r1.1
  let mpErr := r2.2
  let r3 := loggerProviderShutdown env r2.1
  let lpErr := r3.2
  let invoked := [ShutdownStage.connClose, ShutdownStage.tpShutdown,
                  ShutdownStage.mpShutdown, ShutdownStage.lpShutdown]
  let result :=
    if cErr.isSome then cErr
    else if tpErr.isSome then tpErr
    else if mpErr.isSome then mpErr
    else lpErr
  (r3.1, invoked, result)

/-- First non-nil error in a list of Go error results. -/
def firstSome : List (Option Err) → Option Err
  | [] => none
  | o :: rest =>
    match o with
    | some e => some e
    | none => firstSome rest

/-- C1. The claim states that the three providers are shut down and
flushed first and the shared gRPC channel is closed last, after all
three providers have finished flushing. The code does the opposite: for
every library outcome and every starting state, the shutdown closure
invokes `conn.Close()` as its first operation, strictly before each of
the three provider shutdowns, so the channel is already closed while the
providers flush their buffers. -/
theorem shutdown_closes_channel_before_providers
    (env : ShutdownEnv) (s : OtelState) :
    (shutdownClosure env s).2.1 =
      [ShutdownStage.connClose, ShutdownStage.tpShutdown,
       ShutdownStage.mpShutdown, ShutdownStage.lpShutdown] ∧
    (shutdownClosure env s).2.1.head? = some ShutdownStage.connClose ∧
    (shutdownClosure env s).2.1.indexOf ShutdownStage.connClose <
      (shutdownClosure env s).2.1.indexOf ShutdownStage.tpShutdown := by
  refine ⟨rfl, rfl, ?_⟩
  have h : (shutdownClosure env s).2.1 =
      [ShutdownStage.connClose, ShutdownStage.tpShutdown,
       ShutdownStage.mpShutdown, ShutdownStage.lpShutdown] := rfl
  rw [h]
  decide

/-- C3. When any stage of the shutdown sequence fails, every remaining
stage is still executed, and the coordinator returns the first non-nil
error among the stage results in invocation order (channel close, trace
provider, metric provider, log provider). Starting from the fresh state,
all four stages are invoked regardless of which stages fail, and the
returned error is the first non-nil element of the four results. -/
theorem shutdown_runs_all_stages_returns_first_error (env : ShutdownEnv) :
    (shutdownClosure env freshState).2.1 =
      [ShutdownStage.connClose, ShutdownStage.tpShutdown,
       ShutdownStage.mpShutdown, ShutdownStage.lpShutdown] ∧
    (shutdownClosure env freshState).2.2 =
      firstSome [env.connCloseErr, env.tpShutdownErr,
                 env.mpShutdownErr, env.lpShutdownErr] := by
  refine ⟨rfl, ?_⟩
  obtain ⟨c, t, m, l⟩ := env
  cases c <;> cases t <;> cases m <;> cases l <;>
    simp [shutdownClosure, connClose, tracerProviderShutdown,
          meterProviderShutdown, loggerProviderShutdown, firstSome,
          freshState]

/-- C9. Invoking the shutdown closure a second time, after the pipeline
has already been shut down, does not panic (the embedded operations are
total functions: grpc-go and the SDK providers document safe repeated
close / shutdown calls) and returns a definitive error: the grpc-go
sentinel `ErrClientConnClosing` from the repeated `conn.Close()`, while
the repeated provider shutdowns are no-ops. The pipeline state is left
unchanged. -/
theorem shutdown_second_call_definitive_error
    (env1 env2 : ShutdownEnv) :
    (shutdownClosure env2 (shutdownClosure env1 freshState).1).2.2 =
      some Err.errClientConnClosing ∧
    (shutdownClosure env2 (shutdownClosure env1 freshState).1).1 =
      (shutdownClosure env1 freshState).1 := by
  obtain ⟨c, t, m, l⟩ := env1
  constructor <;>
    simp [shutdownClosure, connClose, tracerProviderShutdown,
          meterProviderShutdown, loggerProviderShutdown, freshState]

/-- Process configuration read from the environment at startup:
`OTEL_SERVICE_NAME` and `OTEL_EXPORTER_OTLP_ENDPOINT` (go-app/main.go
lines 32-41). `os.Getenv` yields the empty string when a variable is
absent. -/
structure Config where
  serviceName : String
  otlpEndpoint : String
deriving DecidableEq, Repr

/-- The fallible stages of `initOtel`, in program order (go-app/main.go
lines 44-125): resource construction, gRPC client creation, the three
exporter constructions, and the three instrument creations. -/
inductive InitStage where
  | resourceNew
  | grpcNewClient
  | traceExporterNew
  | metricExporterNew
  | logExporterNew
  | requestsCounterNew
  | activeRequestsCounterNew
  | workHistogramNew
deriving DecidableEq, Repr

/-- Outcomes of the external library constructors invoked by `initOtel`;
each is either nil or an error, and is an input of the embedding because
the constructor bodies live outside the program. -/
structure InitEnv where
  resourceNewErr : Option Err
  grpcNewClientErr : Option Err
  traceExporterErr : Option Err
  metricExporterErr : Option Err
  logExporterErr : Option Err
  requestsCounterErr : Option Err
  activeRequestsCounterErr : Option Err
  workHistogramErr : Option Err
deriving DecidableEq, Repr

/-- The wrapped error `fmt.Errorf("failed to create ...: %w", err)`
that `initOtel` returns: it identifies the failed stage and wraps the
underlying cause. -/
structure InitError where
  stage : InitStage
  cause : Err
deriving DecidableEq, Repr

/-- What a successful `initOtel` leaves behind that the claims inspect:
the service-name attribute placed on the resource and the target handed
to `grpc.NewClient`. Both are copied verbatim from the configuration;
`initOtel` performs no validation on either. -/
structure Pipeline where
  resourceServiceName : String
  connTarget : String
deriving DecidableEq, Repr

/-- Embedding of `initOtel` (go-app/main.go lines 44-150): each fallible
stage runs in program order; the first stage that reports an error makes
the function return the wrapped error at once (`return nil,
fmt.Errorf(...)`), so no later stage runs. The returned list records the
stages that were attempted. On success the assembled pipeline carries
the configuration values unchanged. -/
def initOtel (cfg : Config) (env : InitEnv) :
    List InitStage × Except InitError Pipeline :=
  match env.resourceNewErr with
  | some e => ([InitStage.resourceNew], Except.error ⟨InitStage.resourceNew, e⟩)
  | none =>
  match env.grpcNewClientErr with
  | some e => ([InitStage.resourceNew, InitStage.grpcNewClient],
               Except.error ⟨InitStage.grpcNewClient, e⟩)
  | none =>
  match env.traceExporterErr with
  | some e => ([InitStage.resourceNew, InitStage.grpcNewClient,
                InitStage.traceExporterNew],
               Except.error ⟨InitStage.traceExporterNew, e⟩)
  | none =>
  match env.metricExporterErr with
  | some e => ([InitStage.resourceNew, InitStage.grpcNewClient,
                InitStage.traceExporterNew, InitStage.metricExporterNew],
               Except.error ⟨InitStage.metricExporterNew, e⟩)
  | none =>
  match env.logExporterErr with
  | some e => ([InitStage.resourceNew, InitStage.grpcNewClient,
                InitStage.traceExporterNew, InitStage.metricExporterNew,
                InitStage.logExporterNew],
               Except.error ⟨InitStage.logExporterNew, e⟩)
  | none =>
  match env.requestsCounterErr with
  | some e => ([InitStage.resourceNew, InitStage.grpcNewClient,
                InitStage.traceExporterNew, InitStage.metricExporterNew,
                InitStage.logExporterNew, InitStage.requestsCounterNew],
               Except.error ⟨InitStage.requestsCounterNew, e⟩)
  | none =>
  match env.activeRequestsCounterErr with
  | some e => ([InitStage.resourceNew, InitStage.grpcNewClient,
                InitStage.traceExporterNew, InitStage.metricExporterNew,
                InitStage.logExporterNew, InitStage.requestsCounterNew,
                InitStage.activeRequestsCounterNew],
               Except.error ⟨InitStage.activeRequestsCounterNew, e⟩)
  | none =>
  match env.workHistogramErr with
  | some e => ([InitStage.resourceNew, InitStage.grpcNewClient,
                InitStage.traceExporterNew, InitStage.metricExporterNew,
                InitStage.logExporterNew, InitStage.requestsCounterNew,
                InitStage.activeRequestsCounterNew, InitStage.workHistogramNew],
               Except.error ⟨InitStage.workHistogramNew, e⟩)
  | none =>
    ([InitStage.resourceNew, InitStage.grpcNewClient,
      InitStage.traceExporterNew, InitStage.metricExporterNew,
      InitStage.logExporterNew, InitStage.requestsCounterNew,
      InitStage.activeRequestsCounterNew, InitStage.workHistogramNew],
     Except.ok ⟨cfg.serviceName, cfg.otlpEndpoint⟩)

/-- The fallible stages in program order. -/
def initStageOrder : List InitStage :=
  [InitStage.resourceNew, InitStage.grpcNewClient,
   InitStage.traceExporterNew, InitStage.metricExporterNew,
   InitStage.logExporterNew, InitStage.requestsCounterNew,
   InitStage.activeRequestsCounterNew, InitStage.workHistogramNew]

/-- The outcome the environment assigns to a given stage. -/
def stageOutcome (env : InitEnv) : InitStage → Option Err
  | InitStage.resourceNew => env.resourceNewErr
  | InitStage.grpcNewClient => env.grpcNewClientErr
  | InitStage.traceExporterNew => env.traceExporterErr
  | InitStage.metricExporterNew => env.metricExporterErr
  | InitStage.logExporterNew => env.logExporterErr
  | InitStage.requestsCounterNew => env.requestsCounterErr
  | InitStage.activeRequestsCounterNew => env.activeRequestsCounterErr
  | InitStage.workHistogramNew => env.workHistogramErr

/-- First failing stage (with its cause) along a given stage list. -/
def firstFailureIn (env : InitEnv) : List InitStage → Option (InitStage × Err)
  | [] => none
  | st :: rest =>
    match stageOutcome env st with
    | some e => some (st, e)
    | none => firstFailureIn env rest

/-- First failing stage of the whole initialization sequence. -/
def firstInitFailure (env : InitEnv) : Option (InitStage × Err) :=
  firstFailureIn env initStageOrder

/-- The prefix of the stage order up to and including a given stage. -/
def stagesThrough : InitStage → List InitStage
  | InitStage.resourceNew => [InitStage.resourceNew]
  | InitStage.grpcNewClient => [InitStage.resourceNew, InitStage.grpcNewClient]
  | InitStage.traceExporterNew =>
      [InitStage.resourceNew, InitStage.grpcNewClient,
       InitStage.traceExporterNew]
  | InitStage.metricExporterNew =>
      [InitStage.resourceNew, InitStage.grpcNewClient,
       InitStage.traceExporterNew, InitStage.metricExporterNew]
  | InitStage.logExporterNew =>
      [InitStage.resourceNew, InitStage.grpcNewClient,
       InitStage.traceExporterNew, InitStage.metricExporterNew,
       InitStage.logExporterNew]
  | InitStage.requestsCounterNew =>
      [InitStage.resourceNew, InitStage.grpcNewClient,
       InitStage.traceExporterNew, InitStage.metricExporterNew,
       InitStage.logExporterNew, InitStage.requestsCounterNew]
  | InitStage.activeRequestsCounterNew =>
      [InitStage.resourceNew, InitStage.grpcNewClient,
       InitStage.traceExporterNew, InitStage.metricExporterNew,
       InitStage.logExporterNew, InitStage.requestsCounterNew,
       InitStage.activeRequestsCounterNew]
  | InitStage.workHistogramNew =>
      [InitStage.resourceNew, InitStage.grpcNewClient,
       InitStage.traceExporterNew, InitStage.metricExporterNew,
       InitStage.logExporterNew, InitStage.requestsCounterNew,
       InitStage.activeRequestsCounterNew, InitStage.workHistogramNew]

/-- How the process starts: `main` calls `initOtel` and on error calls
`log.Fatal(err)` before the HTTP mux or server is ever constructed
(go-app/main.go lines 166-190); only on success does it reach
`ListenAndServe`. -/
inductive ProcessOutcome where
  | fatalExit (e : InitError)
  | serving (p : Pipeline)
deriving DecidableEq, Repr

/-- Embedding of the startup portion of `main`. -/
def mainStartup (cfg : Config) (env : InitEnv) : ProcessOutcome :=
  match (initOtel cfg env).2 with
  | Except.error e => ProcessOutcome.fatalExit e
  | Except.ok p => ProcessOutcome.serving p

/-- True when `initOtel` returned nil error. -/
def initSucceeded (cfg : Config) (env : InitEnv) : Bool :=
  match (initOtel cfg env).2 with
  | Except.ok _ => true
  | Except.error _ => false

/-- C4. If any stage of initialization fails, `initOtel` aborts
immediately: it returns a wrapped error identifying the first failed
stage, no stage after the failed one is attempted, and `main` exits
fatally without ever starting to serve HTTP requests. -/
theorem initOtel_aborts_on_first_failed_stage
    (cfg : Config) (env : InitEnv) (st : InitStage) (e : Err)
    (h : firstInitFailure env = some (st, e)) :
    (initOtel cfg env).2 = Except.error ⟨st, e⟩ ∧
    (initOtel cfg env).1 = stagesThrough st ∧
    mainStartup cfg env = ProcessOutcome.fatalExit ⟨st, e⟩ := by
  obtain ⟨r, g, t, m, l, c, a, w⟩ := env
  simp only [firstInitFailure, initStageOrder, firstFailureIn,
             stageOutcome] at h
  cases r with
  | some e0 =>
      simp at h
      obtain ⟨rfl, rfl⟩ := h
      simp [initOtel, stagesThrough, mainStartup]
  | none =>
  cases g with
  | some e0 =>
      simp at h
      obtain ⟨rfl, rfl⟩ := h
      simp [initOtel, stagesThrough, mainStartup]
  | none =>
  cases t with
  | some e0 =>
      simp at h
      obtain ⟨rfl, rfl⟩ := h
      simp [initOtel, stagesThrough, mainStartup]
  | none =>
  cases m with
  | some e0 =>
      simp at h
      obtain ⟨rfl, rfl⟩ := h
      simp [initOtel, stagesThrough, mainStartup]
  | none =>
  cases l with
  | some e0 =>
      simp at h
      obtain ⟨rfl, rfl⟩ := h
      simp [initOtel, stagesThrough, mainStartup]
  | none =>
  cases c with
  | some e0 =>
      simp at h
      obtain ⟨rfl, rfl⟩ := h
      simp [initOtel, stagesThrough, mainStartup]
  | none =>
  cases a with
  | some e0 =>
      simp at h
      obtain ⟨rfl, rfl⟩ := h
      simp [initOtel, stagesThrough, mainStartup]
  | none =>
  cases w with
  | some e0 =>
      simp at h
      obtain ⟨rfl, rfl⟩ := h
      simp [initOtel, stagesThrough, mainStartup]
  | none =>
  simp at h

/-- C4 witness: a concrete run in which the gRPC client construction
fails; initialization aborts at that stage with the wrapping error and
the process exits fatally. -/
theorem initOtel_aborts_on_first_failed_stage_witness :
    firstInitFailure ⟨none, some (Err.external 7), none, none, none,
                      none, none, none⟩ =
      some (InitStage.grpcNewClient, Err.external 7) ∧
    ((initOtel ⟨"my-go-app", "otel-collector:4317"⟩
        ⟨none, some (Err.external 7), none, none, none,
         none, none, none⟩).2 =
      Except.error ⟨InitStage.grpcNewClient, Err.external 7⟩ ∧
    (initOtel ⟨"my-go-app", "otel-collector:4317"⟩
        ⟨none, some (Err.external 7), none, none, none,
         none, none, none⟩).1 =
      stagesThrough InitStage.grpcNewClient ∧
    mainStartup ⟨"my-go-app", "otel-collector:4317"⟩
        ⟨none, some (Err.external 7), none, none, none,
         none, none, none⟩ =
      ProcessOutcome.fatalExit ⟨InitStage.grpcNewClient, Err.external 7⟩) :=
  ⟨rfl, initOtel_aborts_on_first_failed_stage _ _ _ _ rfl⟩

/-- C5 counterexample. The claim says an absent service identity string
or collector endpoint makes initialization fail. With both environment
variables absent (`os.Getenv` yields empty strings) and every library
construction succeeding — `resource.New` accepts an empty service-name
attribute and `grpc.NewClient` builds a lazy client without contacting
the target — `initOtel` succeeds, silently carrying the empty values
into the pipeline. -/
theorem initOtel_accepts_absent_config :
    initSucceeded ⟨"", ""⟩ ⟨none, none, none, none, none, none, none, none⟩
      = true ∧
    (initOtel ⟨"", ""⟩ ⟨none, none, none, none, none, none, none, none⟩).2
      = Except.ok ⟨"", ""⟩ :=
  ⟨rfl, rfl⟩

/-- C5 amended. `initOtel` performs no validation of the configuration:
whether initialization succeeds is decided solely by the outcomes of the
external construction stages and is independent of the service identity
string and the endpoint address, which are passed through verbatim
(absent values become empty strings rather than errors). -/
theorem initOtel_outcome_independent_of_config
    (cfg cfg2 : Config) (env : InitEnv) :
    initSucceeded cfg env = initSucceeded cfg2 env ∧
    (initSucceeded cfg env = true ↔ firstInitFailure env = none) := by
  obtain ⟨r, g, t, m, l, c, a, w⟩ := env
  cases r with
  | some e0 => simp [initSucceeded, initOtel, firstInitFailure,
                     firstFailureIn, stageOutcome, initStageOrder]
  | none =>
  cases g with
  | some e0 => simp [initSucceeded, initOtel, firstInitFailure,
                     firstFailureIn, stageOutcome, initStageOrder]
  | none =>
  cases t with
  | some e0 => simp [initSucceeded, initOtel, firstInitFailure,
                     firstFailureIn, stageOutcome, initStageOrder]
  | none =>
  cases m with
  | some e0 => simp [initSucceeded, initOtel, firstInitFailure,
                     firstFailureIn, stageOutcome, initStageOrder]
  | none =>
  cases l with
  | some e0 => simp [initSucceeded, initOtel, firstInitFailure,
                     firstFailureIn, stageOutcome, initStageOrder]
  | none =>
  cases c with
  | some e0 => simp [initSucceeded, initOtel, firstInitFailure,
                     firstFailureIn, stageOutcome, initStageOrder]
  | none =>
  cases a with
  | some e0 => simp [initSucceeded, initOtel, firstInitFailure,
                     firstFailureIn, stageOutcome, initStageOrder]
  | none =>
  cases w with
  | some e0 => simp [initSucceeded, initOtel, firstInitFailure,
                     firstFailureIn, stageOutcome, initStageOrder]
  | none => simp [initSucceeded, initOtel, firstInitFailure,
                  firstFailureIn, stageOutcome, initStageOrder]

/-- Log severities used by the program (`otellog.SeverityInfo`,
`otellog.SeverityError`); `undefined` is the zero value of
`otellog.Severity`. -/
inductive Sev where
  | undefined
  | info
  | error
deriving DecidableEq, Repr

/-- Telemetry and response actions a handler performs, in program
order. Span start and end events carry the clock value at which they
happen. -/
inductive HEvent where
  | spanStart (name : String) (time : Nat)
  | spanEnd (name : String) (time : Nat)
  | spanAddEvent (label : String)
  | spanSetAttrInt (key : String) (value : Int)
  | counterAdd (route : String) (delta : Int)
  | logEmit (severity : Sev) (body : String)
  | histogramRecord (success : Bool) (durationMs : Nat)
  | httpError (status : Nat)
  | respondBody (body : String)
deriving DecidableEq, Repr

/-- Embedding of `helloHandler` (go-app/main.go lines 204-219): start a
span, bump the request counter for the route, emit an info log, sleep
50 ms, add a span event, write the response; the deferred `span.End()`
runs when the function returns. -/
def helloHandler (t0 : Nat) : List HEvent :=
  [HEvent.spanStart "helloHandler.work" t0,
   HEvent.counterAdd "/hello" 1,
   HEvent.logEmit Sev.info "Received request for /hello",
   HEvent.spanAddEvent "Finished sleeping",
   HEvent.respondBody "Hello, OpenTelemetry!",
   HEvent.spanEnd "helloHandler.work" (t0 + 50)]

/-- Inputs of one `workHandler` run that come from outside the function
body: the two random sleep durations (in ms), the wall time taken by the
downstream HTTP call, and its result — either a transport error or a
response status code. -/
structure WorkEnv where
  sleep1 : Nat
  sleep2 : Nat
  downstreamTime : Nat
  downstreamResult : Except Err Nat
deriving Repr

/-- Embedding of `workHandler` (go-app/main.go lines 222-261). After the
initial work and the downstream call, the error path returns early with
`http.Error(..., StatusInternalServerError)` and an error log; the
deferred `span.End()` runs on that early return as well. The success
path records the span attribute, the duration histogram entry tagged
`success=true`, the final log and the response before the deferred end
runs. -/
def workHandler (env : WorkEnv) (t0 : Nat) : List HEvent :=
  let leadIn :=
    [HEvent.spanStart "workHandler.mainOperation" t0,
     HEvent.counterAdd "/work" 1,
     HEvent.logEmit Sev.info "Starting complex work",
     HEvent.spanAddEvent "Initial processing complete",
     HEvent.logEmit Sev.info "Calling downstream service"]
  let t1 := t0 + env.sleep1
  let t2 := t1 + env.downstreamTime
  match env.downstreamResult with
  | Except.error _ =>
      leadIn ++
        [HEvent.httpError 500,
         HEvent.logEmit Sev.error "Downstream call failed",
         HEvent.spanEnd "workHandler.mainOperation" t2]
  | Except.ok status =>
      let t3 := t2 + env.sleep2
      leadIn ++
        [HEvent.spanSetAttrInt "downstream.status_code" (status : Int),
         HEvent.spanAddEvent "Final processing complete",
         HEvent.histogramRecord true (t3 - t0),
         HEvent.logEmit Sev.info "Complex work finished",
         HEvent.respondBody "Work complete!",
         HEvent.spanEnd "workHandler.mainOperation" t3]

/-- Embedding of `downstreamHandler` (go-app/main.go lines 264-282):
start a span, bump the counter, emit an info log, sleep for the
simulated query time, set the query-time attribute and event, respond;
the deferred `span.End()` runs at return. -/
def downstreamHandler (dbQueryTime : Nat) (t0 : Nat) : List HEvent :=
  [HEvent.spanStart "downstreamHandler.databaseQuery" t0,
   HEvent.counterAdd "/downstream" 1,
   HEvent.logEmit Sev.info "Downstream service received request",
   HEvent.spanSetAttrInt "db.query.time_ms" (dbQueryTime : Int),
   HEvent.spanAddEvent "Database query finished",
   HEvent.respondBody "Downstream work done.",
   HEvent.spanEnd "downstreamHandler.databaseQuery" (t0 + dbQueryTime)]

/-- Number of start events of the span with the given name. -/
def spanStartCount (name : String) : List HEvent → Nat
  | [] => 0
  | HEvent.spanStart n _ :: rest =>
      (if n = name then 1 else 0) + spanStartCount name rest
  | _ :: rest => spanStartCount name rest

/-- Number of end events of the span with the given name. -/
def spanEndCount (name : String) : List HEvent → Nat
  | [] => 0
  | HEvent.spanEnd n _ :: rest =>
      (if n = name then 1 else 0) + spanEndCount name rest
  | _ :: rest => spanEndCount name rest

/-- Clock value of the first start event of the named span. -/
def firstSpanStartTime (name : String) : List HEvent → Option Nat
  | [] => none
  | HEvent.spanStart n t :: rest =>
      if n = name then some t else firstSpanStartTime name rest
  | _ :: rest => firstSpanStartTime name rest

/-- Clock value of the first end event of the named span. -/
def firstSpanEndTime (name : String) : List HEvent → Option Nat
  | [] => none
  | HEvent.spanEnd n t :: rest =>
      if n = name then some t else firstSpanEndTime name rest
  | _ :: rest => firstSpanEndTime name rest

/-- The span discipline the spec demands of a handler run: the named
span is started exactly once and ended exactly once, and its end time is
at least its start time. -/
def spanDiscipline (name : String) (evs : List HEvent) (ts te : Nat) : Prop :=
  spanStartCount name evs = 1 ∧ spanEndCount name evs = 1 ∧
  firstSpanStartTime name evs = some ts ∧
  firstSpanEndTime name evs = some te ∧ ts ≤ te

/-- Helper: span discipline of `helloHandler`. -/
theorem helloHandler_span_ok (t0 : Nat) :
    spanDiscipline "helloHandler.work" (helloHandler t0) t0 (t0 + 50) := by
  refine ⟨?_, ?_, ?_, ?_, ?_⟩ <;>
    simp [helloHandler, spanDiscipline, spanStartCount, spanEndCount,
          firstSpanStartTime, firstSpanEndTime]

/-- Helper: span discipline of `downstreamHandler`. -/
theorem downstreamHandler_span_ok (q t0 : Nat) :
    spanDiscipline "downstreamHandler.databaseQuery"
      (downstreamHandler q t0) t0 (t0 + q) := by
  refine ⟨?_, ?_, ?_, ?_, ?_⟩ <;>
    simp [downstreamHandler, spanDiscipline, spanStartCount, spanEndCount,
          firstSpanStartTime, firstSpanEndTime]

/-- Helper: span discipline of `workHandler` on both the early-return
error path and the success path. -/
theorem workHandler_span_ok (env : WorkEnv) (t0 : Nat) :
    ∃ te, spanDiscipline "workHandler.mainOperation"
      (workHandler env t0) t0 te ∧ t0 ≤ te := by
  obtain ⟨s1, s2, dt, dres⟩ := env
  cases dres with
  | error e =>
      refine ⟨t0 + s1 + dt, ⟨?_, ?_, ?_, ?_, ?_⟩, ?_⟩ <;>
        (try simp [workHandler, spanStartCount, spanEndCount,
              firstSpanStartTime, firstSpanEndTime]) <;> omega
  | ok status =>
      refine ⟨t0 + s1 + dt + s2, ⟨?_, ?_, ?_, ?_, ?_⟩, ?_⟩ <;>
        (try simp [workHandler, spanStartCount, spanEndCount,
              firstSpanStartTime, firstSpanEndTime]) <;> omega

/-- C2. For every request to any of the three endpoints — including
the early-return error path of the composite `/work` endpoint — the
span the handler starts at its beginning is started exactly once and
ended exactly once (the deferred end runs on every exit path), and the
completed span has end time at least its start time. -/
theorem handlers_end_span_exactly_once
    (t0 q : Nat) (env : WorkEnv) :
    spanDiscipline "helloHandler.work" (helloHandler t0) t0 (t0 + 50) ∧
    spanDiscipline "downstreamHandler.databaseQuery"
      (downstreamHandler q t0) t0 (t0 + q) ∧
    (∃ te, spanDiscipline "workHandler.mainOperation"
      (workHandler env t0) t0 te ∧ t0 ≤ te) :=
  ⟨helloHandler_span_ok t0, downstreamHandler_span_ok q t0,
   workHandler_span_ok env t0⟩

/-- Number of histogram entries tagged `success=true`. -/
def histogramSuccessCount : List HEvent → Nat
  | [] => 0
  | HEvent.histogramRecord true _ :: rest => 1 + histogramSuccessCount rest
  | _ :: rest => histogramSuccessCount rest

/-- Status code `workHandler` writes: `http.Error` with 500 on the
downstream failure path, the implicit 200 of a successful response
otherwise. The handler body contains no process-terminating call — a
failed downstream call produces a response, never an exit. -/
def workHandlerStatus (env : WorkEnv) : Nat :=
  match env.downstreamResult with
  | Except.error _ => 500
  | Except.ok _ => 200

/-- C6. When the downstream call fails, `workHandler` responds with a
5xx status (500), emits an error-severity log record, records no
`success=true` histogram entry, and its span is still ended exactly
once; the handler returns normally so the process keeps running. -/
theorem workHandler_downstream_failure
    (env : WorkEnv) (t0 : Nat) (e : Err)
    (h : env.downstreamResult = Except.error e) :
    workHandlerStatus env = 500 ∧
    HEvent.httpError 500 ∈ workHandler env t0 ∧
    HEvent.logEmit Sev.error "Downstream call failed" ∈ workHandler env t0 ∧
    histogramSuccessCount (workHandler env t0) = 0 ∧
    spanEndCount "workHandler.mainOperation" (workHandler env t0) = 1 := by
  obtain ⟨s1, s2, dt, dres⟩ := env
  cases dres with
  | error e2 =>
      refine ⟨rfl, ?_, ?_, ?_, ?_⟩ <;>
        simp [workHandler, workHandlerStatus, histogramSuccessCount,
              spanEndCount]
  | ok status => cases h

/-- C6 witness: a concrete run whose downstream call fails with a
transport error. -/
theorem workHandler_downstream_failure_witness :
    (WorkEnv.mk 80 60 10 (Except.error (Err.external 3))).downstreamResult
      = Except.error (Err.external 3) ∧
    (workHandlerStatus ⟨80, 60, 10, Except.error (Err.external 3)⟩ = 500 ∧
     HEvent.httpError 500 ∈ workHandler ⟨80, 60, 10, Except.error (Err.external 3)⟩ 0 ∧
     HEvent.logEmit Sev.error "Downstream call failed"
       ∈ workHandler ⟨80, 60, 10, Except.error (Err.external 3)⟩ 0 ∧
     histogramSuccessCount
       (workHandler ⟨80, 60, 10, Except.error (Err.external 3)⟩ 0) = 0 ∧
     spanEndCount "workHandler.mainOperation"
       (workHandler ⟨80, 60, 10, Except.error (Err.external 3)⟩ 0) = 1) :=
  ⟨rfl, workHandler_downstream_failure _ 0 (Err.external 3) rfl⟩

/-- Events observable at the middleware level: an `Add` on the
active-requests up-down counter, or an opaque operation performed by the
wrapped handler (the handlers never touch the active-requests
instrument). -/
inductive MEvent where
  | gaugeAdd (delta : Int)
  | handlerOp (tag : Nat)
deriving DecidableEq, Repr

/-- How the wrapped handler terminates. A deferred call runs when the
surrounding function returns or panics (Go language specification), so
the middleware decrement executes for each of these outcomes; a handler
panic is recovered by the `net/http` server and does not kill the
process. -/
inductive HandlerOutcome where
  | ok
  | errored
  | panicked
deriving DecidableEq, Repr

/-- One execution of the wrapped handler: the operations it performed
before terminating (a proper prefix of its body when it panicked) and
how it terminated. -/
structure HandlerRun where
  ops : List Nat
  outcome : HandlerOutcome
deriving DecidableEq, Repr

/-- Embedding of `activeRequestsMiddleware` (go-app/main.go lines
153-160): `httpActiveRequests.Add(ctx, 1)` on entry, then
`defer httpActiveRequests.Add(ctx, -1)`, then the wrapped handler; the
deferred decrement runs on exit for every handler outcome. -/
def activeRequestsMiddleware (run : HandlerRun) : List MEvent :=
  MEvent.gaugeAdd 1 :: (run.ops.map MEvent.handlerOp ++ [MEvent.gaugeAdd (-1)])

/-- Number of occurrences of a given event. -/
def countEvent (e : MEvent) : List MEvent → Nat
  | [] => 0
  | x :: rest => (if x = e then 1 else 0) + countEvent e rest

/-- Helper: handler operations contribute no occurrence of a gauge
event. -/
theorem countEvent_gauge_map_handlerOp (d : Int) (l : List Nat) :
    countEvent (MEvent.gaugeAdd d) (l.map MEvent.handlerOp) = 0 := by
  induction l with
  | nil => rfl
  | cons x xs ih => simp [countEvent, ih]

/-- Helper: counting distributes over append. -/
theorem countEvent_append (e : MEvent) (l1 l2 : List MEvent) :
    countEvent e (l1 ++ l2) = countEvent e l1 + countEvent e l2 := by
  induction l1 with
  | nil => simp [countEvent]
  | cons x xs ih => simp [countEvent, ih]; omega

/-- A step of the global request schedule: some request enters the
middleware (its gauge increment) or leaves it (its deferred gauge
decrement). Any interleaving of concurrent requests is such a list, and
any instant is a prefix of it. -/
inductive GEvent where
  | enter (rid : Nat)
  | leave (rid : Nat)
deriving DecidableEq, Repr

/-- Value of the active-requests up-down counter after a schedule: it
accumulates the `+1` the middleware adds at each enter and the `-1` it
adds at each leave. -/
def gaugeOf : List GEvent → Int
  | [] => 0
  | GEvent.enter _ :: rest => 1 + gaugeOf rest
  | GEvent.leave _ :: rest => (-1) + gaugeOf rest

/-- Number of requests started in a schedule. -/
def startedCount : List GEvent → Nat
  | [] => 0
  | GEvent.enter _ :: rest => 1 + startedCount rest
  | GEvent.leave _ :: rest => startedCount rest

/-- Number of requests finished in a schedule. -/
def finishedCount : List GEvent → Nat
  | [] => 0
  | GEvent.enter _ :: rest => finishedCount rest
  | GEvent.leave _ :: rest => 1 + finishedCount rest

/-- Helper: the gauge equals started minus finished on any schedule. -/
theorem gaugeOf_eq_started_sub_finished (tr : List GEvent) :
    gaugeOf tr = (startedCount tr : Int) - (finishedCount tr : Int) := by
  induction tr with
  | nil => simp [gaugeOf, startedCount, finishedCount]
  | cons x xs ih =>
      cases x <;> simp [gaugeOf, startedCount, finishedCount, ih] <;>
        omega

/-- C7. The middleware brackets every request with exactly one gauge
increment (its first action) and exactly one gauge decrement (its last
action), for every handler outcome including error and panic; hence on
any interleaved schedule of concurrent requests the gauge at every
instant equals the number of requests started minus the number
finished, and it returns to 0 once all started requests have finished. -/
theorem active_requests_gauge_invariant :
    (∀ run : HandlerRun,
      (activeRequestsMiddleware run).head? = some (MEvent.gaugeAdd 1) ∧
      (activeRequestsMiddleware run).getLast? = some (MEvent.gaugeAdd (-1)) ∧
      countEvent (MEvent.gaugeAdd 1) (activeRequestsMiddleware run) = 1 ∧
      countEvent (MEvent.gaugeAdd (-1)) (activeRequestsMiddleware run) = 1) ∧
    (∀ tr : List GEvent,
      gaugeOf tr = (startedCount tr : Int) - (finishedCount tr : Int)) ∧
    (∀ tr : List GEvent, startedCount tr = finishedCount tr →
      gaugeOf tr = 0) := by
  refine ⟨?_, gaugeOf_eq_started_sub_finished, ?_⟩
  · intro run
    obtain ⟨ops, outcome⟩ := run
    refine ⟨rfl, ?_, ?_, ?_⟩
    · show (MEvent.gaugeAdd 1 :: (ops.map MEvent.handlerOp ++
          [MEvent.gaugeAdd (-1)])).getLast? = some (MEvent.gaugeAdd (-1))
      rw [← List.cons_append, List.getLast?_concat]
    · simp [activeRequestsMiddleware, countEvent, countEvent_append,
            countEvent_gauge_map_handlerOp]
    · simp [activeRequestsMiddleware, countEvent, countEvent_append,
            countEvent_gauge_map_handlerOp]
  · intro tr h
    rw [gaugeOf_eq_started_sub_finished, h]
    omega

/-- C7 witness: a concrete schedule of two overlapping requests, one of
which panicked, in which all started requests have finished; the gauge
is 0 and the intermediate prefixes match started minus finished. -/
theorem active_requests_gauge_invariant_witness :
    (startedCount [GEvent.enter 1, GEvent.enter 2, GEvent.leave 1,
                   GEvent.leave 2] =
      finishedCount [GEvent.enter 1, GEvent.enter 2, GEvent.leave 1,
                     GEvent.leave 2] ∧
     gaugeOf [GEvent.enter 1, GEvent.enter 2, GEvent.leave 1,
              GEvent.leave 2] = 0) ∧
    countEvent (MEvent.gaugeAdd (-1))
      (activeRequestsMiddleware ⟨[7], HandlerOutcome.panicked⟩) = 1 :=
  ⟨⟨by decide,
    (active_requests_gauge_invariant.2.2)
      [GEvent.enter 1, GEvent.enter 2, GEvent.leave 1, GEvent.leave 2]
      (by decide)⟩,
   ((active_requests_gauge_invariant.1) ⟨[7], HandlerOutcome.panicked⟩).2.2.2⟩

/-- Trace context: the pair of trace identifier and span identifier that
is carried in a `context.Context` and, across the outbound HTTP call, in
the standard propagation headers. -/
structure SpanContext where
  traceId : Nat
  spanId : Nat
deriving DecidableEq, Repr

/-- A recorded span: its operation name, its own context, and the span
identifier of its parent within the same trace (none for a root). -/
structure SpanRec where
  name : String
  sc : SpanContext
  parent : Option Nat
deriving DecidableEq, Repr

/-- Embedding of `tracer.Start(ctx, name)`: with an active span in the
context the new span shares its trace identifier and records it as
parent; without one it becomes the root of a fresh trace. Fresh
identifiers are drawn from a counter. -/
def tracerStart (active : Option SpanContext) (name : String)
    (fresh : Nat) : SpanRec × Nat :=
  match active with
  | some sc =>
      ({ name := name, sc := { traceId := sc.traceId, spanId := fresh },
         parent := some sc.spanId }, fresh + 1)
  | none =>
      ({ name := name, sc := { traceId := fresh, spanId := fresh + 1 },
         parent := none }, fresh + 2)

/-- Embedding of `otelhttp.NewHandler`: it extracts any trace context
from the inbound request headers and starts the server span as its child
(or as a new root when the headers carry none). -/
def otelhttpServerSpan (inboundHeaders : Option SpanContext) (op : String)
    (fresh : Nat) : SpanRec × Nat :=
  tracerStart inboundHeaders op fresh

/-- Embedding of `otelhttp.NewTransport` on the instrumented client: it
starts a client span from the request context and injects the client
span context into the outgoing request headers. -/
def otelhttpTransport (active : Option SpanContext) (fresh : Nat) :
    SpanRec × Option SpanContext × Nat :=
  let started := tracerStart active "HTTP GET" fresh
  (started.1, some started.1.sc, started.2)

/-- The spans recorded while one request traverses `/work` and its
internal downstream call, and the headers the outbound call carried. -/
structure WorkTrace where
  workServerSpan : SpanRec
  workOpSpan : SpanRec
  clientSpan : SpanRec
  outboundHeaders : Option SpanContext
  downstreamServerSpan : SpanRec
  downstreamOpSpan : SpanRec
deriving DecidableEq, Repr

/-- Embedding of the span bookkeeping of one `/work` request
(go-app/main.go lines 178-179, 222-250, 264-268): the `otelhttp`
wrapper starts the server span from the inbound headers; `workHandler`
starts `workHandler.mainOperation` but discards the derived context
(the blank identifier in `_, span := tracer.Start(ctx, ...)`), so the
request context keeps the server span active; the instrumented client
starts a client span from that context and injects it into the outbound
headers; the `/downstream` wrapper extracts them and starts its server
span as their child; `downstreamHandler` starts its own child span. -/
def simulateWorkRequest (inboundHeaders : Option SpanContext)
    (fresh : Nat) : WorkTrace :=
  let srv := otelhttpServerSpan inboundHeaders "work" fresh
  let op := tracerStart (some srv.1.sc) "workHandler.mainOperation" srv.2
  let client := otelhttpTransport (some srv.1.sc) op.2
  let dsrv := otelhttpServerSpan client.2.1 "downstream" client.2.2
  let dop := tracerStart (some dsrv.1.sc) "downstreamHandler.databaseQuery"
    dsrv.2
  { workServerSpan := srv.1, workOpSpan := op.1, clientSpan := client.1,
    outboundHeaders := client.2.1, downstreamServerSpan := dsrv.1,
    downstreamOpSpan := dop.1 }

/-- C8. For a request traversing `/work` into `/downstream`, the
outbound call carries the active trace context in its headers (the
context of the client span the instrumented transport starts inside the
`/work` request), and every span recorded for the downstream endpoint
has the same trace identifier as the `/work` server span; the
downstream server span is a child of the client span recorded during
the `/work` request, which is itself a child of the `/work` server
span, so the downstream span nests inside the `/work` trace. -/
theorem work_downstream_trace_propagation (fresh : Nat) :
    (simulateWorkRequest none fresh).outboundHeaders =
      some (simulateWorkRequest none fresh).clientSpan.sc ∧
    (simulateWorkRequest none fresh).clientSpan.sc.traceId =
      (simulateWorkRequest none fresh).workServerSpan.sc.traceId ∧
    (simulateWorkRequest none fresh).downstreamServerSpan.sc.traceId =
      (simulateWorkRequest none fresh).workServerSpan.sc.traceId ∧
    (simulateWorkRequest none fresh).downstreamOpSpan.sc.traceId =
      (simulateWorkRequest none fresh).workServerSpan.sc.traceId ∧
    (simulateWorkRequest none fresh).downstreamServerSpan.parent =
      some (simulateWorkRequest none fresh).clientSpan.sc.spanId ∧
    (simulateWorkRequest none fresh).clientSpan.parent =
      some (simulateWorkRequest none fresh).workServerSpan.sc.spanId :=
  ⟨rfl, rfl, rfl, rfl, rfl, rfl⟩

/-- An emitted log record: timestamp, severity, body and attributes
(the zero value of `otellog.Record` before the setters run). -/
structure LogRecord where
  timestamp : Nat
  severity : Sev
  body : String
  attrs : List (String × String)
deriving DecidableEq, Repr

/-- Embedding of `emitLog` (go-app/main.go lines 285-294): build a zero
record, set its timestamp to the current time, its severity and its
body, add the variadic attributes only when at least one was passed,
and emit the record once. -/
def emitLog (now : Nat) (severity : Sev) (body : String)
    (attrs : List (String × String)) : List LogRecord :=
  let record : LogRecord :=
    { timestamp := 0, severity := Sev.undefined, body := "", attrs := [] }
  let record := { record with timestamp := now }
  let record := { record with severity := severity }
  let record := { record with body := body }
  let record :=
    if attrs.length > 0 then { record with attrs := record.attrs ++ attrs }
    else record
  [record]

/-- C10. Every call of `emitLog` emits exactly one record whose
timestamp is the time of the call and whose severity and body equal the
arguments; the supplied attributes are attached exactly as given, and a
call with no attribute argument attaches none. -/
theorem emitLog_emits_single_record
    (now : Nat) (severity : Sev) (body : String)
    (attrs : List (String × String)) :
    emitLog now severity body attrs =
      [{ timestamp := now, severity := severity, body := body,
         attrs := attrs }] ∧
    emitLog now severity body [] =
      [{ timestamp := now, severity := severity, body := body,
         attrs := [] }] := by
  constructor
  · cases attrs with
    | nil => rfl
    | cons a rest => simp [emitLog]
  · rfl

end GoOtel
